import Mathlib

/-!
Verification of the DietaryRecord application (src/app.py).

The application is a single-user diet tracker.  We give a shallow embedding
of its data model (UserConfig, FoodTemplate, DailyRecord), of the pure
arithmetic in NutrientCalculator, and of the state-mutating route handlers
(config POST, add_record, add_template, edit_template, delete_record,
delete_template).  Python floats are modelled as exact rationals; the
1-decimal Python round (round half to even) used in get_progress is
modelled explicitly by pyRound1.
-/

/-- Embedding of the UserConfig model: body weight (kg) and the three
per-kilogram macro coefficients. -/
structure UserConfig where
  weight : ℚ
  carb_per_kg : ℚ
  protein_per_kg : ℚ
  fat_per_kg : ℚ
deriving DecidableEq

/-- Embedding of the FoodTemplate model. -/
structure FoodTemplate where
  id : ℕ
  name : String
  carb_ratio : ℚ
  protein_ratio : ℚ
  fat_ratio : ℚ
  calories : Option ℚ
deriving DecidableEq

/-- Embedding of the DailyRecord model.  Dates and times are abstract keys. -/
structure DailyRecord where
  id : ℕ
  date : ℕ
  time : ℕ
  food_name : String
  weight : ℚ
  carb_ratio : ℚ
  protein_ratio : ℚ
  fat_ratio : ℚ
  notes : String
  template_id : Option ℕ
deriving DecidableEq

/-- The per-macro daily goals returned by calculate_daily_goals. -/
structure Goals where
  carb : ℚ
  protein : ℚ
  fat : ℚ
deriving DecidableEq

/-- The nutrient totals dict {carb, protein, fat, calories}. -/
structure Nutrients where
  carb : ℚ
  protein : ℚ
  fat : ℚ
  calories : ℚ
deriving DecidableEq

/-- NutrientCalculator.calculate_daily_goals: goal(macro) = weight × coefficient. -/
def calculate_daily_goals (user_config : UserConfig) : Goals :=
  { carb := user_config.weight * user_config.carb_per_kg
    protein := user_config.weight * user_config.protein_per_kg
    fat := user_config.weight * user_config.fat_per_kg }

/-- NutrientCalculator.calculate_nutrient_amount: grams of each macro and the
calorie total (carb_g * 4) + (protein_g * 4) + (fat_g * 9). -/
def calculate_nutrient_amount (record : DailyRecord) : Nutrients :=
  let carb_g := record.weight * record.carb_ratio / 100
  let protein_g := record.weight * record.protein_ratio / 100
  let fat_g := record.weight * record.fat_ratio / 100
  { carb := carb_g
    protein := protein_g
    fat := fat_g
    calories := (carb_g * 4) + (protein_g * 4) + (fat_g * 9) }

/-- DailyRecord.query.filter_by(date=target_date).all(): the records stored
for a given date, the database being a list of records. -/
def recordsFor (target_date : ℕ) (db : List DailyRecord) : List DailyRecord :=
  db.filter (fun r => r.date == target_date)

/-- Elementwise addition of nutrient totals (the `for key in total` loop body). -/
def add_nutrients (total n : Nutrients) : Nutrients :=
  { carb := total.carb + n.carb
    protein := total.protein + n.protein
    fat := total.fat + n.fat
    calories := total.calories + n.calories }

/-- The initial all-zero totals dict. -/
def zero_total : Nutrients := { carb := 0, protein := 0, fat := 0, calories := 0 }

/-- NutrientCalculator.get_daily_summary: fold calculate_nutrient_amount over
the records of the day, starting from the all-zero dict. -/
def get_daily_summary (target_date : ℕ) (db : List DailyRecord) : Nutrients :=
  (recordsFor target_date db).foldl
    (fun total r => add_nutrients total (calculate_nutrient_amount r)) zero_total

/-- Python round-half-to-even of a rational to an integer. -/
def pyRoundInt (q : ℚ) : ℤ :=
  if q - ⌊q⌋ < 1 / 2 then ⌊q⌋
  else if 1 / 2 < q - ⌊q⌋ then ⌊q⌋ + 1
  else if ⌊q⌋ % 2 = 0 then ⌊q⌋ else ⌊q⌋ + 1

/-- Python round(q, 1): one decimal digit, ties to even. -/
def pyRound1 (q : ℚ) : ℚ := (pyRoundInt (q * 10) : ℚ) / 10

/-- One entry of the progress dict built by the loop in get_progress. -/
structure MacroProgress where
  consumed : ℚ
  goal : ℚ
  percentage : ℚ
  remaining : ℚ
  is_over : Bool
deriving DecidableEq

/-- The loop body of NutrientCalculator.get_progress for one nutrient. -/
def progress_entry (consumed goal : ℚ) : MacroProgress :=
  let percentage := if 0 < goal then min ((consumed / goal) * 100) 100 else 0
  { consumed := pyRound1 consumed
    goal := pyRound1 goal
    percentage := pyRound1 percentage
    remaining := max (pyRound1 (goal - consumed)) 0
    is_over := decide (consumed > goal) }

/-- The progress dict keyed by carb / protein / fat. -/
structure Progress where
  carb : MacroProgress
  protein : MacroProgress
  fat : MacroProgress
deriving DecidableEq

/-- NutrientCalculator.get_progress: per-macro progress against the goals
derived from the user config. -/
def get_progress (user_config : UserConfig) (daily_summary : Nutrients) : Progress :=
  let goals := calculate_daily_goals user_config
  { carb := progress_entry daily_summary.carb goals.carb
    protein := progress_entry daily_summary.protein goals.protein
    fat := progress_entry daily_summary.fat goals.fat }

/-- A record as in the spec example: weight 100 g, carb ratio 75. -/
def sample_record : DailyRecord :=
  { id := 1, date := 0, time := 0, food_name := "rice", weight := 100
    carb_ratio := 75, protein_ratio := 7, fat_ratio := 1, notes := ""
    template_id := none }

/-- Flash message category attached to a response. -/
inductive Flash
  | success
  | error
deriving DecidableEq

/-- Parsed form data of the add_template / edit_template POST: the three
ratio fields parsed as numbers, plus the name and the optional calories
field (none when the form field is empty). -/
structure TemplateForm where
  name : String
  carb_ratio : ℚ
  protein_ratio : ℚ
  fat_ratio : ℚ
  calories : Option ℚ
deriving DecidableEq

/-- Parsed form data of the add_record POST.  template_choice is some id when
an existing template is selected and none in the custom case; the three ratio
fields are read only in the custom case. -/
structure RecordForm where
  food_name : String
  weight : ℚ
  template_choice : Option ℕ
  carb_ratio : ℚ
  protein_ratio : ℚ
  fat_ratio : ℚ
  date : ℕ
  time : ℕ
  notes : String
deriving DecidableEq

/-- The application state: the singleton user config row, the template table,
the record table, and the autoincrement id counters. -/
structure AppState where
  config : UserConfig
  templates : List FoodTemplate
  records : List DailyRecord
  next_template_id : ℕ
  next_record_id : ℕ
deriving DecidableEq

/-- The config POST handler: overwrite the four numeric fields of the
singleton config row. -/
def config_post (st : AppState) (w cp pp fp : ℚ) : AppState × Flash :=
  ({ st with
      config := { weight := w, carb_per_kg := cp, protein_per_kg := pp, fat_per_kg := fp } },
    Flash.success)

/-- The template row created by add_template from the form. -/
def new_template (st : AppState) (f : TemplateForm) : FoodTemplate :=
  { id := st.next_template_id, name := f.name, carb_ratio := f.carb_ratio
    protein_ratio := f.protein_ratio, fat_ratio := f.fat_ratio, calories := f.calories }

/-- The add_template POST handler: reject with an error flash when the three
ratios sum to more than 100, otherwise insert the new template row. -/
def add_template (st : AppState) (f : TemplateForm) : AppState × Flash :=
  let total_ratio := f.carb_ratio + f.protein_ratio + f.fat_ratio
  if 100 < total_ratio then (st, Flash.error)
  else
    ({ st with
        templates := st.templates ++ [new_template st f]
        next_template_id := st.next_template_id + 1 },
      Flash.success)

/-- The record row created by add_record once the ratios are resolved. -/
def new_record (st : AppState) (f : RecordForm) (cr pr fr : ℚ) (tid : Option ℕ) :
    DailyRecord :=
  { id := st.next_record_id, date := f.date, time := f.time, food_name := f.food_name
    weight := f.weight, carb_ratio := cr, protein_ratio := pr, fat_ratio := fr
    notes := f.notes, template_id := tid }

/-- Insert one record row and advance the id counter. -/
def insert_record (st : AppState) (r : DailyRecord) : AppState :=
  { st with records := st.records ++ [r], next_record_id := st.next_record_id + 1 }

/-- The add_record POST handler: the ratios are copied from the selected
template, or taken from the form in the custom case; a dangling template id
raises inside the try block and is flashed as an error with nothing stored. -/
def add_record (st : AppState) (f : RecordForm) : AppState × Flash :=
  match f.template_choice with
  | some tid =>
    match st.templates.find? (fun t => t.id == tid) with
    | some t =>
      (insert_record st (new_record st f t.carb_ratio t.protein_ratio t.fat_ratio (some tid)),
        Flash.success)
    | none => (st, Flash.error)
  | none =>
    (insert_record st (new_record st f f.carb_ratio f.protein_ratio f.fat_ratio none),
      Flash.success)

/-- The in-place field update performed by edit_template on the matching row:
name and the three ratios are overwritten unconditionally, calories only when
the form field is non-empty. -/
def update_template (f : TemplateForm) (t : FoodTemplate) : FoodTemplate :=
  { t with
      name := f.name, carb_ratio := f.carb_ratio, protein_ratio := f.protein_ratio
      fat_ratio := f.fat_ratio
      calories := match f.calories with | some c => some c | none => t.calories }

/-- The edit_template POST handler: get_or_404 on the id, then commit the new
field values; there is no check on the sum of the ratios. -/
def edit_template (st : AppState) (i : ℕ) (f : TemplateForm) : Option (AppState × Flash) :=
  if st.templates.any (fun t => t.id == i) then
    some ({ st with
        templates := st.templates.map (fun t => if t.id == i then update_template f t else t) },
      Flash.success)
  else none

/-- The delete_template handler: get_or_404 on the id, then delete the row. -/
def delete_template (st : AppState) (i : ℕ) : Option (AppState × Flash) :=
  if st.templates.any (fun t => t.id == i) then
    some ({ st with templates := st.templates.filter (fun t => t.id != i) }, Flash.success)
  else none

/-- The delete_record handler: get_or_404 on the id, then delete the row. -/
def delete_record (st : AppState) (i : ℕ) : Option (AppState × Flash) :=
  if st.records.any (fun r => r.id == i) then
    some ({ st with records := st.records.filter (fun r => r.id != i) }, Flash.success)
  else none

/-- The state-mutating endpoints of the application. -/
inductive Op
  | configPost (w cp pp fp : ℚ)
  | addRecord (f : RecordForm)
  | addTemplate (f : TemplateForm)
  | editTemplate (i : ℕ) (f : TemplateForm)
  | deleteRecord (i : ℕ)
  | deleteTemplate (i : ℕ)
deriving DecidableEq

/-- Dispatch one endpoint call; none models a 404 response. -/
def apply_op (op : Op) (st : AppState) : Option (AppState × Flash) :=
  match op with
  | .configPost w cp pp fp => some (config_post st w cp pp fp)
  | .addRecord f => some (add_record st f)
  | .addTemplate f => some (add_template st f)
  | .editTemplate i f => edit_template st i f
  | .deleteRecord i => delete_record st i
  | .deleteTemplate i => delete_template st i

/-- A config with body weight 60 kg and the default coefficients 3 / 1.5 / 0.8,
giving goals 180 / 90 / 48 g. -/
def default_config : UserConfig :=
  { weight := 60, carb_per_kg := 3, protein_per_kg := 3 / 2, fat_per_kg := 4 / 5 }

/-- A config whose carb goal is 3 g. -/
def small_config : UserConfig :=
  { weight := 1, carb_per_kg := 3, protein_per_kg := 3 / 2, fat_per_kg := 4 / 5 }

/-- A config with a negative stored body weight, as the unvalidated form
accepts; every goal is negative. -/
def negative_config : UserConfig :=
  { weight := -60, carb_per_kg := 3, protein_per_kg := 3 / 2, fat_per_kg := 4 / 5 }

/-- One record of 100 g of a food that is 1% carbs: 1 g of carbs. -/
def db_one_gram : List DailyRecord :=
  [{ id := 1, date := 0, time := 0, food_name := "snack", weight := 100, carb_ratio := 1
     protein_ratio := 0, fat_ratio := 0, notes := "", template_id := none }]

/-- One record with a negative weight, as the unvalidated form accepts:
-50 g of carbs consumed. -/
def db_negative : List DailyRecord :=
  [{ id := 1, date := 0, time := 0, food_name := "oops", weight := -100, carb_ratio := 50
     protein_ratio := 0, fat_ratio := 0, notes := "", template_id := none }]

/-- One record of 359.96 g of a 50% carb food: 179.98 g of carbs. -/
def db_near_goal : List DailyRecord :=
  [{ id := 1, date := 0, time := 0, food_name := "rice", weight := 8999 / 25, carb_ratio := 50
     protein_ratio := 0, fat_ratio := 0, notes := "", template_id := none }]

/-- A summary in which the 200 g carb consumption exceeds the 180 g goal of
default_config. -/
def over_summary : Nutrients := { carb := 200, protein := 0, fat := 0, calories := 800 }

/-- An application state with one template and one record. -/
def base_state : AppState :=
  { config := default_config
    templates := [{ id := 1, name := "rice", carb_ratio := 75, protein_ratio := 7
                    fat_ratio := 1, calories := none }]
    records := db_one_gram
    next_template_id := 2
    next_record_id := 2 }

/-- base_state after editing template 1 with form_ok. -/
def edited_state : AppState :=
  { config := default_config
    templates := [{ id := 1, name := "egg", carb_ratio := 40, protein_ratio := 40
                    fat_ratio := 10, calories := none }]
    records := db_one_gram
    next_template_id := 2
    next_record_id := 2 }

/-- A template form whose ratios sum to 90. -/
def form_ok : TemplateForm :=
  { name := "egg", carb_ratio := 40, protein_ratio := 40, fat_ratio := 10, calories := none }

/-- A template form whose ratios sum to 110. -/
def form_over : TemplateForm :=
  { name := "butter", carb_ratio := 50, protein_ratio := 40, fat_ratio := 20
    calories := some 9 }

/-- Claim C1: calculate_nutrient_amount returns carb = weight * carb_ratio / 100,
protein = weight * protein_ratio / 100, fat = weight * fat_ratio / 100, and
calories = 4*carb + 4*protein + 9*fat; for weight=100 and carb_ratio=75 the
carb grams are 75 and the carb contribution to the calories is 300. -/
theorem C1_calculate_nutrient_amount_correct :
    (∀ record : DailyRecord,
      (calculate_nutrient_amount record).carb = record.weight * record.carb_ratio / 100 ∧
      (calculate_nutrient_amount record).protein = record.weight * record.protein_ratio / 100 ∧
      (calculate_nutrient_amount record).fat = record.weight * record.fat_ratio / 100 ∧
      (calculate_nutrient_amount record).calories =
        4 * (calculate_nutrient_amount record).carb +
          4 * (calculate_nutrient_amount record).protein +
          9 * (calculate_nutrient_amount record).fat) ∧
    (calculate_nutrient_amount sample_record).carb = 75 ∧
    4 * (calculate_nutrient_amount sample_record).carb = 300 := by
  refine ⟨fun record => ⟨rfl, rfl, rfl, ?_⟩,
    by norm_num [calculate_nutrient_amount, sample_record],
    by norm_num [calculate_nutrient_amount, sample_record]⟩
  simp only [calculate_nutrient_amount]
  ring

/-- Claim C6: calculate_daily_goals returns, for each macro, the body weight
multiplied by the per-kilogram coefficient of that macro. -/
theorem C6_calculate_daily_goals_correct :
    ∀ user_config : UserConfig,
      (calculate_daily_goals user_config).carb =
          user_config.weight * user_config.carb_per_kg ∧
      (calculate_daily_goals user_config).protein =
          user_config.weight * user_config.protein_per_kg ∧
      (calculate_daily_goals user_config).fat =
          user_config.weight * user_config.fat_per_kg :=
  fun _ => ⟨rfl, rfl, rfl⟩

/-- Folding elementwise addition of nutrient amounts computes the
componentwise sums over the list. -/
theorem foldl_add_nutrients (l : List DailyRecord) (init : Nutrients) :
    l.foldl (fun total r => add_nutrients total (calculate_nutrient_amount r)) init =
      { carb := init.carb + (l.map (fun r => (calculate_nutrient_amount r).carb)).sum
        protein := init.protein + (l.map (fun r => (calculate_nutrient_amount r).protein)).sum
        fat := init.fat + (l.map (fun r => (calculate_nutrient_amount r).fat)).sum
        calories :=
          init.calories + (l.map (fun r => (calculate_nutrient_amount r).calories)).sum } := by
  induction l generalizing init with
  | nil => simp
  | cons r rs ih =>
    rw [List.foldl_cons, ih]
    simp [add_nutrients, add_assoc]

/-- Claim C3: get_daily_summary returns, for each of carb, protein, fat and
calories, the sum of calculate_nutrient_amount over all records stored for
the date; a date with no records yields the all-zero totals. -/
theorem C3_get_daily_summary_sums :
    ∀ (d : ℕ) (db : List DailyRecord),
      (get_daily_summary d db).carb =
          ((recordsFor d db).map fun r => (calculate_nutrient_amount r).carb).sum ∧
      (get_daily_summary d db).protein =
          ((recordsFor d db).map fun r => (calculate_nutrient_amount r).protein).sum ∧
      (get_daily_summary d db).fat =
          ((recordsFor d db).map fun r => (calculate_nutrient_amount r).fat).sum ∧
      (get_daily_summary d db).calories =
          ((recordsFor d db).map fun r => (calculate_nutrient_amount r).calories).sum ∧
      (recordsFor d db = [] → get_daily_summary d db = zero_total) := by
  intro d db
  unfold get_daily_summary
  rw [foldl_add_nutrients]
  refine ⟨by simp [zero_total], by simp [zero_total], by simp [zero_total],
    by simp [zero_total], fun he => ?_⟩
  rw [he]
  simp [zero_total]

/-- Witness for C3 at the empty database. -/
theorem C3_witness :
    recordsFor 0 ([] : List DailyRecord) = [] ∧
      get_daily_summary 0 ([] : List DailyRecord) = zero_total :=
  ⟨rfl, (C3_get_daily_summary_sums 0 []).2.2.2.2 rfl⟩

/-- pyRoundInt never overshoots an integer upper bound of its argument. -/
theorem pyRoundInt_le (q : ℚ) (b : ℤ) (h : q ≤ (b : ℚ)) : pyRoundInt q ≤ b := by
  have hfl : ⌊q⌋ ≤ b := by
    have h2 := Int.floor_le_floor h
    simpa using h2
  have hq : q < ⌊q⌋ + 1 := Int.lt_floor_add_one q
  unfold pyRoundInt
  split_ifs with h1 h2 h3
  · exact hfl
  · have hlt : (⌊q⌋ : ℚ) < (b : ℚ) := by linarith
    exact Int.add_one_le_iff.mpr (by exact_mod_cast hlt)
  · exact hfl
  · push_neg at h1 h2
    have hlt : (⌊q⌋ : ℚ) < (b : ℚ) := by linarith
    exact Int.add_one_le_iff.mpr (by exact_mod_cast hlt)

/-- pyRoundInt never undershoots an integer lower bound of its argument. -/
theorem le_pyRoundInt (q : ℚ) (b : ℤ) (h : (b : ℚ) ≤ q) : b ≤ pyRoundInt q := by
  have hfl : b ≤ ⌊q⌋ := Int.le_floor.mpr h
  unfold pyRoundInt
  split_ifs with h1 h2 h3
  · exact hfl
  · omega
  · exact hfl
  · omega

/-- pyRound1 of a nonnegative rational is nonnegative. -/
theorem pyRound1_nonneg (q : ℚ) (h : 0 ≤ q) : 0 ≤ pyRound1 q := by
  have hi : (0 : ℤ) ≤ pyRoundInt (q * 10) := le_pyRoundInt (q * 10) 0 (by push_cast; linarith)
  have hc : (0 : ℚ) ≤ (pyRoundInt (q * 10) : ℚ) := by exact_mod_cast hi
  unfold pyRound1
  linarith

/-- pyRound1 of a rational at most 100 is at most 100. -/
theorem pyRound1_le_hundred (q : ℚ) (h : q ≤ 100) : pyRound1 q ≤ 100 := by
  have hi : pyRoundInt (q * 10) ≤ 1000 := pyRoundInt_le (q * 10) 1000 (by push_cast; linarith)
  have hc : (pyRoundInt (q * 10) : ℚ) ≤ 1000 := by exact_mod_cast hi
  unfold pyRound1
  linarith

/-- pyRound1 fixes 0. -/
theorem pyRound1_zero : pyRound1 0 = 0 := by
  norm_num [pyRound1, pyRoundInt]

/-- Claim C2 (amended): for each macro the percentage returned by get_progress
is the Python 1-decimal rounding of min(consumed/goal*100, 100) when the goal
is positive, and is 0 when the goal is not positive (in particular when it
is 0). -/
theorem C2_get_progress_percentage :
    ∀ (c : UserConfig) (s : Nutrients),
      (0 < (calculate_daily_goals c).carb →
        (get_progress c s).carb.percentage =
          pyRound1 (min (s.carb / (calculate_daily_goals c).carb * 100) 100)) ∧
      ((calculate_daily_goals c).carb ≤ 0 → (get_progress c s).carb.percentage = 0) ∧
      (0 < (calculate_daily_goals c).protein →
        (get_progress c s).protein.percentage =
          pyRound1 (min (s.protein / (calculate_daily_goals c).protein * 100) 100)) ∧
      ((calculate_daily_goals c).protein ≤ 0 → (get_progress c s).protein.percentage = 0) ∧
      (0 < (calculate_daily_goals c).fat →
        (get_progress c s).fat.percentage =
          pyRound1 (min (s.fat / (calculate_daily_goals c).fat * 100) 100)) ∧
      ((calculate_daily_goals c).fat ≤ 0 → (get_progress c s).fat.percentage = 0) := by
  intro c s
  refine ⟨fun h => ?_, fun h => ?_, fun h => ?_, fun h => ?_, fun h => ?_, fun h => ?_⟩ <;>
    simp only [get_progress, progress_entry]
  · rw [if_pos h]
  · rw [if_neg (not_lt.mpr h)]; exact pyRound1_zero
  · rw [if_pos h]
  · rw [if_neg (not_lt.mpr h)]; exact pyRound1_zero
  · rw [if_pos h]
  · rw [if_neg (not_lt.mpr h)]; exact pyRound1_zero

/-- The totals of the single one-gram-of-carbs record database. -/
theorem daily_one_gram :
    get_daily_summary 0 db_one_gram = { carb := 1, protein := 0, fat := 0, calories := 4 } := by
  norm_num [get_daily_summary, recordsFor, db_one_gram, add_nutrients, zero_total,
    calculate_nutrient_amount]

/-- Counterexample to C2 as stated: with a 3 g carb goal and 1 g consumed the
code returns round(100/3, 1) = 33.3, not 100/3. -/
theorem C2_counterexample :
    (get_progress small_config (get_daily_summary 0 db_one_gram)).carb.percentage ≠
      min ((get_daily_summary 0 db_one_gram).carb /
        (calculate_daily_goals small_config).carb * 100) 100 := by
  rw [daily_one_gram]
  norm_num [get_progress, progress_entry, calculate_daily_goals, small_config,
    pyRound1, pyRoundInt, min_def]

/-- Witness for C2 at the same concrete input. -/
theorem C2_witness :
    0 < (calculate_daily_goals small_config).carb ∧
      (get_progress small_config (get_daily_summary 0 db_one_gram)).carb.percentage =
        pyRound1 (min ((get_daily_summary 0 db_one_gram).carb /
          (calculate_daily_goals small_config).carb * 100) 100) :=
  ⟨by norm_num [calculate_daily_goals, small_config],
    (C2_get_progress_percentage small_config (get_daily_summary 0 db_one_gram)).1
      (by norm_num [calculate_daily_goals, small_config])⟩

/-- Claim C9: whenever a macro goal is not strictly positive (zero or
negative), get_progress takes the guarded branch and the percentage is 0,
so no division by a zero goal is performed. -/
theorem C9_no_division_when_goal_nonpos :
    ∀ (c : UserConfig) (s : Nutrients),
      ((calculate_daily_goals c).carb ≤ 0 → (get_progress c s).carb.percentage = 0) ∧
      ((calculate_daily_goals c).protein ≤ 0 → (get_progress c s).protein.percentage = 0) ∧
      ((calculate_daily_goals c).fat ≤ 0 → (get_progress c s).fat.percentage = 0) := by
  intro c s
  refine ⟨fun h => ?_, fun h => ?_, fun h => ?_⟩ <;>
    simp only [get_progress, progress_entry]
  · rw [if_neg (not_lt.mpr h)]; exact pyRound1_zero
  · rw [if_neg (not_lt.mpr h)]; exact pyRound1_zero
  · rw [if_neg (not_lt.mpr h)]; exact pyRound1_zero

/-- Witness for C9 at a config with negative stored weight. -/
theorem C9_witness :
    (calculate_daily_goals negative_config).carb ≤ 0 ∧
      (get_progress negative_config zero_total).carb.percentage = 0 :=
  ⟨by norm_num [calculate_daily_goals, negative_config],
    (C9_no_division_when_goal_nonpos negative_config zero_total).1
      (by norm_num [calculate_daily_goals, negative_config])⟩

/-- With nonnegative consumption, the percentage of one progress entry is within
[0, 100], whatever the goal. -/
theorem progress_entry_percentage_bounds (consumed goal : ℚ) (h : 0 ≤ consumed) :
    0 ≤ (progress_entry consumed goal).percentage ∧
      (progress_entry consumed goal).percentage ≤ 100 := by
  simp only [progress_entry]
  constructor
  · apply pyRound1_nonneg
    split_ifs with hg
    · exact le_min (by positivity) (by norm_num)
    · exact le_refl 0
  · apply pyRound1_le_hundred
    split_ifs with hg
    · exact min_le_right _ _
    · norm_num

/-- The is_over flag of a progress entry holds exactly when the unrounded
consumption strictly exceeds the unrounded goal. -/
theorem progress_entry_is_over (consumed goal : ℚ) :
    (progress_entry consumed goal).is_over = true ↔ goal < consumed := by
  simp [progress_entry]

/-- Claim C4 (amended): for each macro, when the consumed amount is
nonnegative the percentage returned by get_progress lies in [0, 100], even
when consumed exceeds the goal; in the overage case is_over is true while
the percentage stays capped. -/
theorem C4_percentage_in_range :
    ∀ (c : UserConfig) (s : Nutrients),
      (0 ≤ s.carb → 0 ≤ (get_progress c s).carb.percentage ∧
        (get_progress c s).carb.percentage ≤ 100) ∧
      ((calculate_daily_goals c).carb < s.carb → (get_progress c s).carb.is_over = true) ∧
      (0 ≤ s.protein → 0 ≤ (get_progress c s).protein.percentage ∧
        (get_progress c s).protein.percentage ≤ 100) ∧
      ((calculate_daily_goals c).protein < s.protein →
        (get_progress c s).protein.is_over = true) ∧
      (0 ≤ s.fat → 0 ≤ (get_progress c s).fat.percentage ∧
        (get_progress c s).fat.percentage ≤ 100) ∧
      ((calculate_daily_goals c).fat < s.fat → (get_progress c s).fat.is_over = true) := by
  intro c s
  exact ⟨fun h => progress_entry_percentage_bounds s.carb _ h,
    fun h => (progress_entry_is_over s.carb _).mpr h,
    fun h => progress_entry_percentage_bounds s.protein _ h,
    fun h => (progress_entry_is_over s.protein _).mpr h,
    fun h => progress_entry_percentage_bounds s.fat _ h,
    fun h => (progress_entry_is_over s.fat _).mpr h⟩

/-- The totals of the single negative-weight record database. -/
theorem daily_negative :
    get_daily_summary 0 db_negative =
      { carb := -50, protein := 0, fat := 0, calories := -200 } := by
  norm_num [get_daily_summary, recordsFor, db_negative, add_nutrients, zero_total,
    calculate_nutrient_amount]

/-- Counterexample to C4 as stated: a stored record with negative weight
(which the form code accepts) drives the carb percentage to -27.8, outside
[0, 100]. -/
theorem C4_counterexample :
    (get_progress default_config (get_daily_summary 0 db_negative)).carb.percentage < 0 := by
  rw [daily_negative]
  norm_num [get_progress, progress_entry, calculate_daily_goals, default_config,
    pyRound1, pyRoundInt, min_def]

/-- Witness for C4: 200 g consumed against a 180 g goal keeps the percentage
in [0, 100] and sets is_over. -/
theorem C4_witness :
    (0 ≤ over_summary.carb ∧
      (0 ≤ (get_progress default_config over_summary).carb.percentage ∧
        (get_progress default_config over_summary).carb.percentage ≤ 100)) ∧
    ((calculate_daily_goals default_config).carb < over_summary.carb ∧
      (get_progress default_config over_summary).carb.is_over = true) :=
  ⟨⟨by norm_num [over_summary],
      (C4_percentage_in_range default_config over_summary).1 (by norm_num [over_summary])⟩,
    ⟨by norm_num [calculate_daily_goals, default_config, over_summary],
      (C4_percentage_in_range default_config over_summary).2.1
        (by norm_num [calculate_daily_goals, default_config, over_summary])⟩⟩

/-- Claim C5 (amended): for each macro, get_progress returns
remaining = max(round(goal - consumed, 1), 0) - the difference is rounded to
one decimal before the max - and is_over holds exactly when consumed > goal. -/
theorem C5_remaining_and_is_over :
    ∀ (c : UserConfig) (s : Nutrients),
      ((get_progress c s).carb.remaining =
          max (pyRound1 ((calculate_daily_goals c).carb - s.carb)) 0 ∧
        ((get_progress c s).carb.is_over = true ↔ (calculate_daily_goals c).carb < s.carb)) ∧
      ((get_progress c s).protein.remaining =
          max (pyRound1 ((calculate_daily_goals c).protein - s.protein)) 0 ∧
        ((get_progress c s).protein.is_over = true ↔
          (calculate_daily_goals c).protein < s.protein)) ∧
      ((get_progress c s).fat.remaining =
          max (pyRound1 ((calculate_daily_goals c).fat - s.fat)) 0 ∧
        ((get_progress c s).fat.is_over = true ↔ (calculate_daily_goals c).fat < s.fat)) := by
  intro c s
  exact ⟨⟨rfl, progress_entry_is_over _ _⟩, ⟨rfl, progress_entry_is_over _ _⟩,
    ⟨rfl, progress_entry_is_over _ _⟩⟩

/-- The totals of the 179.98 g carb record database. -/
theorem daily_near_goal :
    get_daily_summary 0 db_near_goal =
      { carb := 8999 / 50, protein := 0, fat := 0, calories := 17998 / 25 } := by
  norm_num [get_daily_summary, recordsFor, db_near_goal, add_nutrients, zero_total,
    calculate_nutrient_amount]

/-- Counterexample to C5 as stated: with goal 180 and consumed 179.98 the code
rounds the 0.02 difference down to 0, so remaining is 0, not
max(goal - consumed, 0) = 0.02. -/
theorem C5_counterexample :
    (get_progress default_config (get_daily_summary 0 db_near_goal)).carb.remaining ≠
      max ((calculate_daily_goals default_config).carb -
        (get_daily_summary 0 db_near_goal).carb) 0 := by
  rw [daily_near_goal]
  norm_num [get_progress, progress_entry, calculate_daily_goals, default_config,
    pyRound1, pyRoundInt, max_def]

/-- Claim C7: an add_template POST with numeric ratios creates a template iff
the three ratios sum to at most 100; when the sum exceeds 100 the request is
flashed as an error and the state is unchanged. -/
theorem C7_add_template_checks_sum :
    ∀ (st : AppState) (f : TemplateForm),
      ((add_template st f).1.templates.length = st.templates.length + 1 ↔
        f.carb_ratio + f.protein_ratio + f.fat_ratio ≤ 100) ∧
      (f.carb_ratio + f.protein_ratio + f.fat_ratio ≤ 100 →
        (add_template st f).2 = Flash.success ∧
        (add_template st f).1.templates = st.templates ++ [new_template st f]) ∧
      (100 < f.carb_ratio + f.protein_ratio + f.fat_ratio →
        (add_template st f).2 = Flash.error ∧ (add_template st f).1 = st) := by
  intro st f
  by_cases h : 100 < f.carb_ratio + f.protein_ratio + f.fat_ratio
  · simp only [add_template, if_pos h]
    refine ⟨?_, fun hle => absurd h (not_lt.mpr hle), fun _ => ⟨by trivial, by trivial⟩⟩
    constructor
    · intro hlen; simp at hlen
    · intro hle; exact absurd h (not_lt.mpr hle)
  · simp only [add_template, if_neg h]
    push_neg at h
    refine ⟨?_, fun _ => ⟨by trivial, by trivial⟩, fun hgt => absurd hgt (not_lt.mpr h)⟩
    simp [List.length_append, h]

/-- Witness for C7: one accepted form with sum 90 and one rejected form with
sum 110. -/
theorem C7_witness :
    (form_ok.carb_ratio + form_ok.protein_ratio + form_ok.fat_ratio ≤ 100 ∧
      (add_template base_state form_ok).2 = Flash.success ∧
      (add_template base_state form_ok).1.templates =
        base_state.templates ++ [new_template base_state form_ok]) ∧
    (100 < form_over.carb_ratio + form_over.protein_ratio + form_over.fat_ratio ∧
      (add_template base_state form_over).2 = Flash.error ∧
      (add_template base_state form_over).1 = base_state) :=
  ⟨⟨by norm_num [form_ok],
      (C7_add_template_checks_sum base_state form_ok).2.1 (by norm_num [form_ok])⟩,
    ⟨by norm_num [form_over],
      (C7_add_template_checks_sum base_state form_over).2.2 (by norm_num [form_over])⟩⟩

/-- Claim C10: an edit_template POST with numeric ratios commits the new
ratios with no check on their sum; even a sum above 100 is flashed as a
success and stored. -/
theorem C10_edit_template_ignores_sum :
    ∀ (st : AppState) (i : ℕ) (f : TemplateForm),
      100 < f.carb_ratio + f.protein_ratio + f.fat_ratio →
      (st.templates.any fun t => t.id == i) = true →
      ∃ st2, edit_template st i f = some (st2, Flash.success) ∧
        ∀ t ∈ st.templates, t.id = i →
          ∃ t2 ∈ st2.templates, t2.id = i ∧
            t2.carb_ratio = f.carb_ratio ∧ t2.protein_ratio = f.protein_ratio ∧
            t2.fat_ratio = f.fat_ratio := by
  intro st i f _ hany
  refine ⟨{ st with templates :=
      st.templates.map (fun t => if t.id == i then update_template f t else t) }, ?_, ?_⟩
  · simp only [edit_template, if_pos hany]
  · intro t ht hti
    refine ⟨update_template f t, ?_, by simp [update_template, hti], rfl, rfl, rfl⟩
    exact List.mem_map.mpr ⟨t, ht, by simp [hti]⟩

/-- Witness for C10: editing the stored template with ratios summing to 110
succeeds and stores them. -/
theorem C10_witness :
    100 < form_over.carb_ratio + form_over.protein_ratio + form_over.fat_ratio ∧
    (base_state.templates.any fun t => t.id == 1) = true ∧
    ∃ st2, edit_template base_state 1 form_over = some (st2, Flash.success) ∧
      ∀ t ∈ base_state.templates, t.id = 1 →
        ∃ t2 ∈ st2.templates, t2.id = 1 ∧
          t2.carb_ratio = form_over.carb_ratio ∧
          t2.protein_ratio = form_over.protein_ratio ∧
          t2.fat_ratio = form_over.fat_ratio :=
  ⟨by norm_num [form_over], rfl,
    C10_edit_template_ignores_sum base_state 1 form_over (by norm_num [form_over]) rfl⟩

/-- Claim C8: editing or deleting a food template leaves the stored records
(with their snapshot ratios and weight) unchanged, as do add_template and the
config POST; and every record present before any endpoint call is still
present unchanged afterwards unless the call was delete_record targeting its
id - no endpoint modifies a record in place. -/
theorem C8_records_only_deleted :
    ∀ (op : Op) (st st2 : AppState) (fl : Flash),
      apply_op op st = some (st2, fl) →
      (∀ i f, op = Op.editTemplate i f → st2.records = st.records) ∧
      (∀ i, op = Op.deleteTemplate i → st2.records = st.records) ∧
      (∀ f, op = Op.addTemplate f → st2.records = st.records) ∧
      (∀ w cp pp fp, op = Op.configPost w cp pp fp → st2.records = st.records) ∧
      (∀ r ∈ st.records, r ∈ st2.records ∨ ∃ i, op = Op.deleteRecord i ∧ r.id = i) := by
  intro op st st2 fl h
  cases op with
  | configPost w cp pp fp =>
    simp only [apply_op, config_post, Option.some.injEq, Prod.mk.injEq] at h
    obtain ⟨hst, -⟩ := h
    subst hst
    exact ⟨fun _ _ heq => Op.noConfusion heq, fun _ heq => Op.noConfusion heq,
      fun _ heq => Op.noConfusion heq, fun _ _ _ _ _ => rfl, fun r hr => Or.inl hr⟩
  | addRecord f =>
    cases htc : f.template_choice with
    | none =>
      simp only [apply_op, add_record, htc, Option.some.injEq, Prod.mk.injEq] at h
      obtain ⟨hst, -⟩ := h
      subst hst
      exact ⟨fun _ _ heq => Op.noConfusion heq, fun _ heq => Op.noConfusion heq,
        fun _ heq => Op.noConfusion heq, fun _ _ _ _ heq => Op.noConfusion heq,
        fun r hr => Or.inl (List.mem_append_left _ hr)⟩
    | some tid =>
      cases hft : st.templates.find? (fun t => t.id == tid) with
      | none =>
        simp only [apply_op, add_record, htc, hft, Option.some.injEq, Prod.mk.injEq] at h
        obtain ⟨hst, -⟩ := h
        subst hst
        exact ⟨fun _ _ heq => Op.noConfusion heq, fun _ heq => Op.noConfusion heq,
          fun _ heq => Op.noConfusion heq, fun _ _ _ _ heq => Op.noConfusion heq,
          fun r hr => Or.inl hr⟩
      | some t =>
        simp only [apply_op, add_record, htc, hft, Option.some.injEq, Prod.mk.injEq] at h
        obtain ⟨hst, -⟩ := h
        subst hst
        exact ⟨fun _ _ heq => Op.noConfusion heq, fun _ heq => Op.noConfusion heq,
          fun _ heq => Op.noConfusion heq, fun _ _ _ _ heq => Op.noConfusion heq,
          fun r hr => Or.inl (List.mem_append_left _ hr)⟩
  | addTemplate f =>
    simp only [apply_op, add_template] at h
    split at h <;>
    · simp only [Option.some.injEq, Prod.mk.injEq] at h
      obtain ⟨hst, -⟩ := h
      subst hst
      exact ⟨fun _ _ heq => Op.noConfusion heq, fun _ heq => Op.noConfusion heq,
        fun _ _ => rfl, fun _ _ _ _ heq => Op.noConfusion heq, fun r hr => Or.inl hr⟩
  | editTemplate i f =>
    simp only [apply_op, edit_template] at h
    split at h
    · simp only [Option.some.injEq, Prod.mk.injEq] at h
      obtain ⟨hst, -⟩ := h
      subst hst
      exact ⟨fun _ _ _ => rfl, fun _ heq => Op.noConfusion heq,
        fun _ heq => Op.noConfusion heq, fun _ _ _ _ heq => Op.noConfusion heq,
        fun r hr => Or.inl hr⟩
    · exact Option.noConfusion h
  | deleteRecord i =>
    simp only [apply_op, delete_record] at h
    split at h
    · simp only [Option.some.injEq, Prod.mk.injEq] at h
      obtain ⟨hst, -⟩ := h
      subst hst
      refine ⟨fun _ _ heq => Op.noConfusion heq, fun _ heq => Op.noConfusion heq,
        fun _ heq => Op.noConfusion heq, fun _ _ _ _ heq => Op.noConfusion heq,
        fun r hr => ?_⟩
      by_cases hid : r.id = i
      · exact Or.inr ⟨i, rfl, hid⟩
      · exact Or.inl (List.mem_filter.mpr ⟨hr, by simp only [bne_iff_ne, ne_eq]; exact hid⟩)
    · exact Option.noConfusion h
  | deleteTemplate i =>
    simp only [apply_op, delete_template] at h
    split at h
    · simp only [Option.some.injEq, Prod.mk.injEq] at h
      obtain ⟨hst, -⟩ := h
      subst hst
      exact ⟨fun _ _ heq => Op.noConfusion heq, fun _ _ => rfl,
        fun _ heq => Op.noConfusion heq, fun _ _ _ _ heq => Op.noConfusion heq,
        fun r hr => Or.inl hr⟩
    · exact Option.noConfusion h

/-- Witness for C8: editing the stored template leaves the record table of
base_state untouched. -/
theorem C8_witness :
    apply_op (Op.editTemplate 1 form_ok) base_state = some (edited_state, Flash.success) ∧
      edited_state.records = base_state.records :=
  ⟨rfl, (C8_records_only_deleted (Op.editTemplate 1 form_ok) base_state edited_state
      Flash.success rfl).1 1 form_ok rfl⟩
